import Mathlib

/-!
Shallow embedding of the Strawberry playback controller (`src/core/player.h`).

Only the header of the controller is among the given sources, so the data
model (field names, signal signatures, inline member bodies) is taken from
`player.h`, while the bodies of the out-of-line members are modelled from the
specification, as marked on each definition.  Stateful operations are
embedded as explicit state-passing functions returning the successor state
together with the list of observable events (outward notifications and
commands issued to the audio engine) emitted by the call.
-/

namespace Strawberry

/-- A URL, reduced to the parts the controller inspects: its scheme and an
opaque remainder.  Mirrors `QUrl` as used by `player.h`. -/
structure Url where
  scheme : String
  path : String
deriving DecidableEq

/-- Result of asking a URL handler to resolve a URL.  Mirrors the spec's
URL-handler contract: `Resolve(url) -> Immediate(url) | Deferred | NotApplicable`. -/
inductive ResolveResult where
  | immediate (media : Url)
  | deferred
  | notApplicable

/-- A pluggable URL resolver (`UrlHandler` in the header): it claims one URL
scheme and resolves URLs of that scheme.  `hid` is an identity tag standing
for the C++ object identity. -/
structure UrlHandler where
  hid : Nat
  scheme : String
  resolve : Url → ResolveResult

/-- A playlist item as seen by the controller: its URL, its duration when
known (`SeekTo` needs it), and whether the engine can actually start it
(`playable = false` stands for an item whose load fails, feeding the error
counter of the spec's auto-advance chain). -/
structure Item where
  url : Url
  durationSec : Option Int
  playable : Bool
deriving DecidableEq

/-- Engine states, from the spec's data model: `{Empty, Idle, Playing,
Paused, Error}` (mirrors `Engine::State` stored in `last_state_`). -/
inductive EngineState where
  | Empty
  | Idle
  | Playing
  | Paused
  | Error
deriving DecidableEq

/-- Cause of a track change (`Engine::TrackChangeFlags` in the header),
reduced to the manual/automatic distinction the spec draws. -/
inductive TrackChangeFlags where
  | manual
  | auto
deriving DecidableEq

/-- Observable events of one controller call: the outward notifications of
`PlayerInterface` (signals in `player.h`) and the commands the controller
issues to the audio engine.  Note the header declares the seek signal as
`void Seeked(qlonglong microseconds)`. -/
inductive Event where
  | notifPlaying
  | notifPaused
  | notifStopped
  | notifError (message : String)
  | notifPlaylistFinished
  | notifVolumeChanged (volume : Int)
  | notifSeeked (microseconds : Int)
  | notifSongChangeRequestProcessed (url : Url) (valid : Bool)
  | engineLoad (url : Url)
  | enginePlay
  | engineStop
  | engineSeek (seconds : Int)
  | engineSetVolume (volume : Int)
deriving DecidableEq

/-- Outcome of an asynchronous URL resolution (`UrlHandler::LoadResult`):
either a concrete media URL became available or the resolution failed. -/
inductive LoadOutcome where
  | trackAvailable (media : Url)
  | loadError (message : String)
deriving DecidableEq

/-- An asynchronous load result delivered back to the controller, identified
by the URL that was being resolved (the spec's `PendingLoad` identity). -/
structure LoadResult where
  original_url : Url
  outcome : LoadOutcome

/-- The controller state.  Field names follow the private members of
`Player` in `player.h` (`current_item_`, `last_state_`,
`nb_errors_received_`, `url_handlers_`, `loading_async_`,
`volume_before_mute_`, `stream_change_type_`).  The playlist itself is the
external sequence-position oracle of the spec, embedded as the list of items
with the active row `current_index_`; `volume` stands for the engine-held
volume read by `GetVolume`; `stop_after_current_` is the spec's armed
`StoppingAfterCurrent` flag; `max_errors_threshold` is the spec's tunable
error threshold T. -/
structure PlayerState where
  playlist : List Item
  current_item_ : Option Item
  current_index_ : Option Nat
  last_state_ : EngineState
  nb_errors_received_ : Nat
  url_handlers_ : List UrlHandler
  loading_async_ : Option Url
  volume : Int
  volume_before_mute_ : Int
  stop_after_current_ : Bool
  stream_change_type_ : TrackChangeFlags
  max_errors_threshold : Nat

/-- Modelled from the spec's registry contract restricted to the structure
the header declares: the body of `Player::HandlerForUrl` is not among the
given sources, but `url_handlers_` is declared `QMap<QString, UrlHandler*>`
(player.h line 219), a map keyed by the URL scheme.  Resolution therefore
looks up the URL's scheme; since `RegisterUrlHandler` keeps at most one
entry per scheme, the `find?` over the map's entries is exactly that key
lookup, and the returned handler is the sole resolver (no fan-out). -/
def HandlerForUrl (handlers : List UrlHandler) (url : Url) : Option UrlHandler :=
  handlers.find? fun h => h.scheme == url.scheme

/-- Modelled from the spec where the declaration leaves room: the body of
`Player::RegisterUrlHandler` is not among the given sources, but the
registry's declared type `QMap<QString, UrlHandler*>` (player.h line 219)
is keyed by scheme and cannot hold two handlers for one scheme.
Registration is therefore embedded with `QMap::insert` semantics: the
handler is stored under its scheme, replacing any earlier entry for the
same scheme; the registry is represented by its list of entries, with at
most one entry per scheme. -/
def RegisterUrlHandler (s : PlayerState) (h : UrlHandler) : PlayerState :=
  { s with url_handlers_ :=
      (s.url_handlers_.filter fun g => g.scheme != h.scheme) ++ [h] }

/-- `Player::GetVolume` (body not among the given sources): reads the
engine-held volume. -/
def GetVolume (s : PlayerState) : Int :=
  s.volume

/-- Modelled from the spec: the body of `Player::SetVolume` is not among the
given sources.  The spec states `SetVolume(value)` clamps to `[0,100]`, sets
the engine volume and the observers learn the new value through
`VolumeChanged`. -/
def SetVolume (s : PlayerState) (value : Int) : PlayerState × List Event :=
  ({ s with volume := min 100 (max 0 value) },
   [.engineSetVolume (min 100 (max 0 value)), .notifVolumeChanged (min 100 (max 0 value))])

/-- `Player::VolumeUp`, inline in the header: `SetVolume(GetVolume() + 5)`. -/
def VolumeUp (s : PlayerState) : PlayerState × List Event :=
  SetVolume s (GetVolume s + 5)

/-- `Player::VolumeDown`, inline in the header: `SetVolume(GetVolume() - 5)`. -/
def VolumeDown (s : PlayerState) : PlayerState × List Event :=
  SetVolume s (GetVolume s - 5)

/-- Modelled from the spec: the body of `Player::Mute` is not among the
given sources.  `Mute()` toggles: it stores the current volume in
`volume_before_mute_` before muting and restores it on un-mute; the header
holds no separate muted flag, so being muted is volume zero. -/
def Mute (s : PlayerState) : PlayerState × List Event :=
  if s.volume = 0 then
    SetVolume s s.volume_before_mute_
  else
    SetVolume { s with volume_before_mute_ := s.volume } 0

/-- Modelled from the spec: the body of `Player::SeekTo` is not among the
given sources.  The target position is clamped to `[0, trackDuration]` and
forwarded to the engine only when a current item with known duration exists
(otherwise the call is a no-op); the emitted seek notification carries the
resulting absolute position, in the unit the header declares for it:
`void Seeked(qlonglong microseconds)`. -/
def SeekTo (s : PlayerState) (seconds : Int) : PlayerState × List Event :=
  match s.current_item_ with
  | none => (s, [])
  | some item =>
    match item.durationSec with
    | none => (s, [])
    | some dur =>
      (s, [.engineSeek (min dur (max 0 seconds)),
           .notifSeeked (min dur (max 0 seconds) * 1000000)])

/-- Immediate stop: the engine is halted and `CurrentItem` is cleared (also
cancelling any pending asynchronous load, per the spec's supersession rule). -/
def StopNow (s : PlayerState) : PlayerState :=
  { s with current_item_ := none, current_index_ := none,
           loading_async_ := none, last_state_ := EngineState.Empty }

/-- Modelled from the spec: the body of `Player::Stop(bool stop_after)` is
not among the given sources.  If `stop_after` is false, stop immediately and
clear `CurrentItem`; if true, arm `StoppingAfterCurrent` without
interrupting playback. -/
def Stop (s : PlayerState) (stop_after : Bool) : PlayerState × List Event :=
  if stop_after then
    ({ s with stop_after_current_ := true }, [])
  else
    (StopNow s, [.engineStop, .notifStopped])

/-- The terminal message reported when the error counter exhausts the
threshold during an auto-advance chain. -/
def kFatalErrorMessage : String :=
  "Reached the maximum number of consecutive playback errors, stopping"

/-- Modelled from the spec: the auto-advance chain of `Player::NextInternal`
(body not among the given sources).  Each failing item increments
`nb_errors_received_`; while the counter stays below the threshold the chain
recursively attempts the following item, at or above the threshold it stops
and reports a single fatal playback error; a playable item is loaded and the
chain ends; running off the end of the playlist stops and reports
`PlaylistFinished`. -/
def AutoAdvance : PlayerState → Nat → List Item → PlayerState × List Event
  | s, _, [] => (StopNow s, [.engineStop, .notifStopped, .notifPlaylistFinished])
  | s, idx, item :: rest =>
    if item.playable then
      ({ s with current_item_ := some item, current_index_ := some idx,
                loading_async_ := none },
       [.engineLoad item.url, .enginePlay])
    else if s.nb_errors_received_ + 1 < s.max_errors_threshold then
      AutoAdvance { s with nb_errors_received_ := s.nb_errors_received_ + 1 } (idx + 1) rest
    else
      (StopNow { s with nb_errors_received_ := s.nb_errors_received_ + 1 },
       [.engineStop, .notifError kFatalErrorMessage])

/-- Modelled from the spec: the body of `Player::HandleStopAfter` is not
among the given sources.  It returns true when playback was supposed to stop
after the track that just ended, in which case the armed flag is consumed
and playback stops with `CurrentItem` cleared. -/
def HandleStopAfter (s : PlayerState) : Bool × PlayerState × List Event :=
  if s.stop_after_current_ then
    (true, StopNow { s with stop_after_current_ := false }, [.engineStop, .notifStopped])
  else
    (false, s, [])

/-- Modelled from the spec: the body of `Player::NextInternal` is not among
the given sources.  On natural end of track: if `StoppingAfterCurrent` was
armed, stop instead of advancing and disarm the flag; otherwise run the
auto-advance chain from the position after the current one. -/
def NextInternal (s : PlayerState) (change : TrackChangeFlags) : PlayerState × List Event :=
  match HandleStopAfter s with
  | (true, s2, events) => (s2, events)
  | (false, s2, _) =>
    match s2.current_index_ with
    | none => (s2, [])
    | some i =>
      AutoAdvance { s2 with stream_change_type_ := change } (i + 1) (s2.playlist.drop (i + 1))

/-- Modelled from the spec: `Player::TrackEnded` (body not among the given
sources) drives auto-advance on natural end of track. -/
def TrackEnded (s : PlayerState) : PlayerState × List Event :=
  NextInternal s TrackChangeFlags.auto

/-- Start an engine load of `media` for playlist position `idx` holding
`item`: `CurrentItem` is replaced and any pending asynchronous load is
superseded. -/
def StartLoad (s : PlayerState) (idx : Nat) (item : Item) (media : Url) :
    PlayerState × List Event :=
  ({ s with current_item_ := some item, current_index_ := some idx,
            loading_async_ := none },
   [.engineLoad media, .enginePlay])

/-- Modelled from the spec: the body of `Player::PlayAt` is not among the
given sources.  An out-of-range index is a no-op that reports nothing.  For
a valid index the item's URL is resolved through the registry: no matching
handler, a not-applicable answer or an immediate answer load the engine
directly; a deferred answer registers the pending load in `loading_async_`
(superseding any earlier one) and returns without blocking.  The reshuffle
flag only reorders the playlist's remaining order, which the spec keeps
outside the controller; it does not affect the chosen item. -/
def PlayAt (s : PlayerState) (i : Int) (change : TrackChangeFlags)
    (reshuffle : Bool) : PlayerState × List Event :=
  if i < 0 ∨ (s.playlist.length : Int) ≤ i then (s, [])
  else
    match s.playlist[i.toNat]? with
    | none => (s, [])
    | some item =>
      match HandlerForUrl s.url_handlers_ item.url with
      | none => StartLoad { s with stream_change_type_ := change } i.toNat item item.url
      | some h =>
        match h.resolve item.url with
        | ResolveResult.immediate media =>
          StartLoad { s with stream_change_type_ := change } i.toNat item media
        | ResolveResult.notApplicable =>
          StartLoad { s with stream_change_type_ := change } i.toNat item item.url
        | ResolveResult.deferred =>
          ({ s with stream_change_type_ := change, current_index_ := some i.toNat,
                    loading_async_ := some item.url }, [])

/-- Modelled from the spec: the body of `Player::HandleLoadResult` is not
among the given sources.  A result whose URL does not match the pending load
in `loading_async_` was superseded and is fully suppressed: no notification,
no state change.  A matching successful result loads the engine with the
resolved media URL; a matching failed result reports the failed URL as
invalid and advances to the next playable item. -/
def HandleLoadResult (s : PlayerState) (result : LoadResult) : PlayerState × List Event :=
  if s.loading_async_ = some result.original_url then
    match result.outcome with
    | LoadOutcome.trackAvailable media =>
      ({ s with loading_async_ := none,
                current_item_ := s.playlist.find? fun it => it.url == result.original_url },
       [.engineLoad media, .enginePlay])
    | LoadOutcome.loadError _ =>
      match s.current_index_ with
      | some i =>
        ((AutoAdvance { s with loading_async_ := none } (i + 1) (s.playlist.drop (i + 1))).1,
         Event.notifSongChangeRequestProcessed result.original_url false
           :: (AutoAdvance { s with loading_async_ := none } (i + 1) (s.playlist.drop (i + 1))).2)
      | none =>
        (StopNow { s with loading_async_ := none },
         [.notifSongChangeRequestProcessed result.original_url false, .engineStop, .notifStopped])
  else (s, [])

/-- Modelled from the spec: the body of `Player::EngineStateChanged` is not
among the given sources.  The last engine state is mirrored; the error
counter resets to zero on a successful start (transition into `Playing`) and
increments on an engine-reported error; the controller re-emits the
simplified outward notification for the new state. -/
def EngineStateChanged (s : PlayerState) (state : EngineState) : PlayerState × List Event :=
  ({ s with last_state_ := state,
            nb_errors_received_ :=
              match state with
              | EngineState.Playing => 0
              | EngineState.Error => s.nb_errors_received_ + 1
              | _ => s.nb_errors_received_ },
   match state with
   | EngineState.Playing => [.notifPlaying]
   | EngineState.Paused => [.notifPaused]
   | EngineState.Empty => [.notifStopped]
   | EngineState.Idle => [.notifStopped]
   | EngineState.Error => [])

end Strawberry

namespace Strawberry

/-- C4: for every integer input v, `SetVolume(v)` results in an observed
volume (as returned by `GetVolume` and carried by the `VolumeChanged`
notification) equal to `clamp(v, 0, 100)`; `VolumeUp` and `VolumeDown`
apply their fixed step solely by calling `SetVolume`, so their results are
clamped by the same rule with no separate clamping logic. -/
theorem SetVolume_clamps_and_steps_route_through_it (s : PlayerState) (v : Int) :
    (SetVolume s v).1.volume = min 100 (max 0 v) ∧
    GetVolume (SetVolume s v).1 = min 100 (max 0 v) ∧
    (SetVolume s v).2
      = [Event.engineSetVolume (min 100 (max 0 v)),
         Event.notifVolumeChanged (min 100 (max 0 v))] ∧
    VolumeUp s = SetVolume s (GetVolume s + 5) ∧
    VolumeDown s = SetVolume s (GetVolume s - 5) := by
  exact ⟨rfl, rfl, rfl, rfl, rfl⟩

/-- C10: the fixed volume step applied by `VolumeUp` and `VolumeDown` is
exactly 5 units: for every current volume, `VolumeUp()` behaves identically
to `SetVolume(v + 5)` and `VolumeDown()` identically to `SetVolume(v - 5)`,
so their outcomes are the clamp of the current volume shifted by 5. -/
theorem volume_step_is_exactly_five (s : PlayerState) :
    VolumeUp s = SetVolume s (s.volume + 5) ∧
    VolumeDown s = SetVolume s (s.volume - 5) ∧
    (VolumeUp s).1.volume = min 100 (max 0 (s.volume + 5)) ∧
    (VolumeDown s).1.volume = min 100 (max 0 (s.volume - 5)) := by
  exact ⟨rfl, rfl, rfl, rfl⟩

/-- C7: the error counter is reset to exactly zero on every successful
engine start (transition into `Playing`), is incremented on an
engine-reported error, and is left unchanged by every other engine state
transition; thus after any successful start it reads zero regardless of its
prior value. -/
theorem error_counter_reset_on_start (s : PlayerState) :
    (EngineStateChanged s EngineState.Playing).1.nb_errors_received_ = 0 ∧
    (EngineStateChanged s EngineState.Error).1.nb_errors_received_
      = s.nb_errors_received_ + 1 ∧
    (EngineStateChanged s EngineState.Paused).1.nb_errors_received_
      = s.nb_errors_received_ ∧
    (EngineStateChanged s EngineState.Empty).1.nb_errors_received_
      = s.nb_errors_received_ ∧
    (EngineStateChanged s EngineState.Idle).1.nb_errors_received_
      = s.nb_errors_received_ := by
  exact ⟨rfl, rfl, rfl, rfl, rfl⟩

/-- C6: `Stop(stop_after=true)` does not interrupt playback (it emits no
event, keeps `CurrentItem` and the engine state); when the track later ends
naturally, the controller stops instead of auto-advancing: `CurrentItem`
becomes null, the armed flag is consumed, and the event trace is exactly the
stop events — in particular no engine load of the following item occurs.
`Stop(stop_after=false)` stops immediately and clears the current item. -/
theorem stop_after_current_semantics (s : PlayerState) :
    (Stop s true).2 = [] ∧
    (Stop s true).1.current_item_ = s.current_item_ ∧
    (Stop s true).1.last_state_ = s.last_state_ ∧
    (Stop s true).1.loading_async_ = s.loading_async_ ∧
    (TrackEnded (Stop s true).1).1.current_item_ = none ∧
    (TrackEnded (Stop s true).1).1.stop_after_current_ = false ∧
    (TrackEnded (Stop s true).1).1.last_state_ = EngineState.Empty ∧
    (TrackEnded (Stop s true).1).2 = [Event.engineStop, Event.notifStopped] ∧
    (Stop s false).1.current_item_ = none ∧
    (Stop s false).2 = [Event.engineStop, Event.notifStopped] := by
  refine ⟨rfl, rfl, rfl, rfl, ?_, ?_, ?_, ?_, rfl, rfl⟩ <;>
    simp [Stop, TrackEnded, NextInternal, HandleStopAfter, StopNow]

end Strawberry

namespace Strawberry

/-- A concrete local file URL used by the concrete evaluations below. -/
def sampleUrl : Url :=
  { scheme := "file", path := "music/a.mp3" }

/-- A concrete playable item with a known duration of 10 seconds. -/
def sampleItem : Item :=
  { url := sampleUrl, durationSec := some 10, playable := true }

/-- A concrete controller state playing `sampleItem`. -/
def samplePlaying : PlayerState :=
  { playlist := [sampleItem]
    current_item_ := some sampleItem
    current_index_ := some 0
    last_state_ := EngineState.Playing
    nb_errors_received_ := 0
    url_handlers_ := []
    loading_async_ := none
    volume := 50
    volume_before_mute_ := 50
    stop_after_current_ := false
    stream_change_type_ := TrackChangeFlags.manual
    max_errors_threshold := 3 }

/-- C8 counterexample: seeking to second 3 of a 10-second track emits the
`Seeked` notification with payload 3000000 — the absolute position in
microseconds, as `player.h` declares (`Seeked(qlonglong microseconds)`) —
and not with the millisecond payload 3000 the claim predicts. -/
theorem SeekTo_millisecond_unit_counterexample :
    (SeekTo samplePlaying 3).2
      = [Event.engineSeek 3, Event.notifSeeked 3000000] ∧
    Event.notifSeeked (3 * 1000) ∉ (SeekTo samplePlaying 3).2 := by
  decide

/-- C8 (amended): for every seconds argument, `SeekTo` clamps the target
position to `[0, trackDuration]`, forwards the seek to the engine only when
a current item with known duration exists (otherwise it is a no-op), and
emits the `Seeked` notification carrying the resulting absolute position —
in microseconds, the unit `player.h` declares for the signal — not the
delta. -/
theorem SeekTo_clamps_and_emits_microseconds (s : PlayerState) (seconds : Int) :
    (s.current_item_ = none → SeekTo s seconds = (s, [])) ∧
    (∀ item, s.current_item_ = some item → item.durationSec = none →
      SeekTo s seconds = (s, [])) ∧
    (∀ item dur, s.current_item_ = some item → item.durationSec = some dur →
      0 ≤ dur →
      0 ≤ min dur (max 0 seconds) ∧
      min dur (max 0 seconds) ≤ dur ∧
      (SeekTo s seconds).1 = s ∧
      (SeekTo s seconds).2
        = [Event.engineSeek (min dur (max 0 seconds)),
           Event.notifSeeked (min dur (max 0 seconds) * 1000000)]) := by
  refine ⟨?_, ?_, ?_⟩
  · intro h
    simp [SeekTo, h]
  · intro item hitem hdur
    simp [SeekTo, hitem, hdur]
  · intro item dur hitem hdur hpos
    refine ⟨by omega, by omega, ?_, ?_⟩ <;> simp [SeekTo, hitem, hdur]

/-- C8 witness: the amended theorem evaluated on the concrete playing state
at seconds = 13, which is clamped to the 10-second duration. -/
theorem SeekTo_clamps_witness :
    0 ≤ min (10 : Int) (max 0 13) ∧
    min (10 : Int) (max 0 13) ≤ 10 ∧
    (SeekTo samplePlaying 13).1 = samplePlaying ∧
    (SeekTo samplePlaying 13).2
      = [Event.engineSeek (min 10 (max 0 13)),
         Event.notifSeeked (min 10 (max 0 13) * 1000000)] :=
  (SeekTo_clamps_and_emits_microseconds samplePlaying 13).2.2
    sampleItem 10 rfl rfl (by decide)

/-- C9: for every index outside the playlist's valid range, `PlayAt` is a
no-op: it emits no event, and the state — current item, engine state, and
everything else — is returned unchanged. -/
theorem PlayAt_out_of_range_noop (s : PlayerState) (i : Int)
    (change : TrackChangeFlags) (reshuffle : Bool)
    (h : i < 0 ∨ (s.playlist.length : Int) ≤ i) :
    PlayAt s i change reshuffle = (s, []) := by
  unfold PlayAt
  rw [if_pos h]

/-- C9 witness: `PlayAt` at index -1 of the concrete one-item state. -/
theorem PlayAt_out_of_range_witness :
    PlayAt samplePlaying (-1) TrackChangeFlags.manual false = (samplePlaying, []) :=
  PlayAt_out_of_range_noop samplePlaying (-1) TrackChangeFlags.manual false
    (by left; decide)

/-- C5: `Mute` is a self-inverse toggle: two successive `Mute()` calls with
no intervening volume change restore exactly the volume observed before the
first call, given that the stored volumes are in the valid range `[0,100]`
(which `SetVolume`'s clamping maintains). -/
theorem Mute_twice_restores_volume (s : PlayerState)
    (hv0 : 0 ≤ s.volume) (hv1 : s.volume ≤ 100)
    (hb0 : 0 ≤ s.volume_before_mute_) (hb1 : s.volume_before_mute_ ≤ 100) :
    (Mute (Mute s).1).1.volume = s.volume := by
  simp only [Mute, SetVolume]
  split_ifs <;> simp_all

end Strawberry

namespace Strawberry

/-- A handler that defers every resolution, used by the concrete
evaluations. -/
def handlerA : UrlHandler :=
  { hid := 1, scheme := "spotify", resolve := fun _ => ResolveResult.deferred }

/-- A second handler claiming the same scheme as `handlerA`. -/
def handlerB : UrlHandler :=
  { hid := 2, scheme := "spotify", resolve := fun _ => ResolveResult.deferred }

/-- A concrete URL of the scheme claimed by `handlerA` and `handlerB`. -/
def spotifyUrlA : Url :=
  { scheme := "spotify", path := "track/1" }

/-- A second, distinct URL of the same scheme. -/
def spotifyUrlB : Url :=
  { scheme := "spotify", path := "track/2" }

/-- Looking up a scheme in the registry right after a handler of that
scheme was stored returns that handler: every other surviving entry has a
different scheme, so the appended entry is found. -/
theorem find_after_insert (l : List UrlHandler) (h2 : UrlHandler) (url : Url)
    (hmatch : h2.scheme = url.scheme) :
    List.find? (fun g => g.scheme == url.scheme)
        ((l.filter fun g => g.scheme != h2.scheme) ++ [h2]) = some h2 := by
  induction l with
  | nil =>
    simp [List.find?_cons_of_pos, hmatch]
  | cons g l ih =>
    by_cases hg : g.scheme = h2.scheme
    · simp only [List.filter_cons]
      rw [if_neg (by simp [hg])]
      exact ih
    · simp only [List.filter_cons]
      rw [if_pos (by simp [hg]), List.cons_append,
        List.find?_cons_of_neg _ (by simpa [← hmatch] using hg)]
      exact ih

/-- C2 counterexample: registering `handlerA` then `handlerB`, both of
scheme "spotify", into the scheme-keyed registry leaves only `handlerB`:
the first handler is discarded, and the most recently registered handler —
not the first — resolves the URL.  This refutes both the no-discard and
the registration-order parts of the claim. -/
theorem register_same_scheme_discards_counterexample :
    (RegisterUrlHandler (RegisterUrlHandler samplePlaying handlerA) handlerB).url_handlers_
      = [handlerB] ∧
    handlerA ∉
      (RegisterUrlHandler (RegisterUrlHandler samplePlaying handlerA) handlerB).url_handlers_ ∧
    HandlerForUrl
      (RegisterUrlHandler (RegisterUrlHandler samplePlaying handlerA) handlerB).url_handlers_
      spotifyUrlA = some handlerB := by
  refine ⟨rfl, ?_, rfl⟩
  intro hmem
  rw [show (RegisterUrlHandler (RegisterUrlHandler samplePlaying handlerA)
      handlerB).url_handlers_ = [handlerB] from rfl, List.mem_singleton] at hmem
  have hids : handlerA.hid = handlerB.hid := by rw [hmem]
  simp [handlerA, handlerB] at hids

/-- C2 (amended): for every URL the registry — the scheme-keyed map the
header declares — resolves by looking up the URL's scheme, and the handler
stored under that scheme is the sole resolver; registering a second handler
for an already-registered scheme is accepted but replaces the earlier
entry, keeping at most one handler per scheme, with the most recently
registered handler resolving that scheme's URLs. -/
theorem url_handler_registry_scheme_keyed
    (s : PlayerState) (h1 h2 : UrlHandler) (url : Url) :
    (h2.scheme = url.scheme →
      HandlerForUrl (RegisterUrlHandler s h2).url_handlers_ url = some h2) ∧
    (h1.scheme = h2.scheme →
      (RegisterUrlHandler (RegisterUrlHandler s h1) h2).url_handlers_
        = (s.url_handlers_.filter fun g => g.scheme != h2.scheme) ++ [h2]) ∧
    h2 ∈ (RegisterUrlHandler (RegisterUrlHandler s h1) h2).url_handlers_ := by
  refine ⟨?_, ?_, ?_⟩
  · intro hmatch
    exact find_after_insert s.url_handlers_ h2 url hmatch
  · intro hsch
    simp only [RegisterUrlHandler, ← hsch, List.filter_append, List.filter_filter]
    simp
  · simp [RegisterUrlHandler]

/-- C2 witness: after registering `handlerB` on the concrete state, the
"spotify" lookup resolves to `handlerB`. -/
theorem url_handler_scheme_keyed_witness :
    HandlerForUrl (RegisterUrlHandler samplePlaying handlerB).url_handlers_
      spotifyUrlA = some handlerB :=
  (url_handler_registry_scheme_keyed samplePlaying handlerA handlerB
    spotifyUrlA).1 rfl

end Strawberry

namespace Strawberry

/-- Shape of `PlayAt` on the deferred path: a valid index whose item's URL
resolves deferred registers the pending load in `loading_async_` and emits
nothing. -/
theorem PlayAt_deferred_shape (s : PlayerState) (i : Nat) (item : Item)
    (h : UrlHandler) (change : TrackChangeFlags) (r : Bool)
    (hlen : i < s.playlist.length)
    (hget : s.playlist[i]? = some item)
    (hfind : HandlerForUrl s.url_handlers_ item.url = some h)
    (hres : h.resolve item.url = ResolveResult.deferred) :
    PlayAt s (i : Int) change r
      = ({ s with stream_change_type_ := change, current_index_ := some i,
                  loading_async_ := some item.url }, []) := by
  unfold PlayAt
  rw [if_neg (by omega)]
  simp only [Int.toNat_natCast, hget, hfind, hres]

/-- A load result whose URL does not match the pending load was superseded:
it is fully suppressed, with no notification and no state change. -/
theorem HandleLoadResult_stale (s : PlayerState) (result : LoadResult)
    (h : s.loading_async_ ≠ some result.original_url) :
    HandleLoadResult s result = (s, []) := by
  unfold HandleLoadResult
  rw [if_neg h]

/-- A successful load result matching the pending load loads the engine with
the resolved media URL. -/
theorem HandleLoadResult_accepted (s : PlayerState) (result : LoadResult)
    (media : Url)
    (hmatch : s.loading_async_ = some result.original_url)
    (hout : result.outcome = LoadOutcome.trackAvailable media) :
    (HandleLoadResult s result).2 = [Event.engineLoad media, Event.enginePlay] := by
  unfold HandleLoadResult
  rw [if_pos hmatch, hout]

/-- C1: a superseded pending asynchronous load never produces observable
effects.  When `PlayAt(i)` and then `PlayAt(j)` both take the deferred path
before the first load resolves, neither call emits anything, the pending
load is item j's; the stale load result for item i delivered afterwards
emits no event and changes no state, while item j's result is processed and
emits item j's engine load. -/
theorem superseded_pending_load_fully_suppressed
    (s : PlayerState) (i j : Nat) (itemI itemJ : Item) (hI hJ : UrlHandler)
    (chI chJ : TrackChangeFlags) (rI rJ : Bool)
    (hgetI : s.playlist[i]? = some itemI) (hgetJ : s.playlist[j]? = some itemJ)
    (hiLen : i < s.playlist.length) (hjLen : j < s.playlist.length)
    (hfindI : HandlerForUrl s.url_handlers_ itemI.url = some hI)
    (hresI : hI.resolve itemI.url = ResolveResult.deferred)
    (hfindJ : HandlerForUrl s.url_handlers_ itemJ.url = some hJ)
    (hresJ : hJ.resolve itemJ.url = ResolveResult.deferred)
    (hne : itemI.url ≠ itemJ.url) :
    (PlayAt s (i : Int) chI rI).2 = [] ∧
    (PlayAt (PlayAt s (i : Int) chI rI).1 (j : Int) chJ rJ).2 = [] ∧
    (PlayAt (PlayAt s (i : Int) chI rI).1 (j : Int) chJ rJ).1.loading_async_
      = some itemJ.url ∧
    (∀ outcome,
      HandleLoadResult (PlayAt (PlayAt s (i : Int) chI rI).1 (j : Int) chJ rJ).1
          { original_url := itemI.url, outcome := outcome }
        = ((PlayAt (PlayAt s (i : Int) chI rI).1 (j : Int) chJ rJ).1, [])) ∧
    (∀ media,
      (HandleLoadResult (PlayAt (PlayAt s (i : Int) chI rI).1 (j : Int) chJ rJ).1
          { original_url := itemJ.url, outcome := LoadOutcome.trackAvailable media }).2
        = [Event.engineLoad media, Event.enginePlay]) := by
  have e1 := PlayAt_deferred_shape s i itemI hI chI rI hiLen hgetI hfindI hresI
  have e2 := PlayAt_deferred_shape
    { s with stream_change_type_ := chI, current_index_ := some i,
             loading_async_ := some itemI.url }
    j itemJ hJ chJ rJ hjLen hgetJ hfindJ hresJ
  simp only [e1]
  simp only [e2]
  refine ⟨trivial, trivial, trivial, ?_, ?_⟩
  · intro outcome
    exact HandleLoadResult_stale _ _
      (fun hcon => hne (Option.some_inj.mp hcon).symm)
  · intro media
    exact HandleLoadResult_accepted _ _ media rfl rfl

/-- An item of `handlerA`'s scheme whose resolution will be deferred. -/
def itemSpotifyA : Item :=
  { url := spotifyUrlA, durationSec := none, playable := true }

/-- A second deferred-resolution item with a distinct URL. -/
def itemSpotifyB : Item :=
  { url := spotifyUrlB, durationSec := none, playable := true }

/-- A concrete idle state whose two playlist items resolve asynchronously
through `handlerA`. -/
def stateAsync : PlayerState :=
  { playlist := [itemSpotifyA, itemSpotifyB]
    current_item_ := none
    current_index_ := none
    last_state_ := EngineState.Empty
    nb_errors_received_ := 0
    url_handlers_ := [handlerA]
    loading_async_ := none
    volume := 50
    volume_before_mute_ := 50
    stop_after_current_ := false
    stream_change_type_ := TrackChangeFlags.manual
    max_errors_threshold := 3 }

/-- C1 witness: after `PlayAt(0)` then `PlayAt(1)` on the concrete async
state, the stale failure result for item 0's URL is fully suppressed. -/
theorem superseded_pending_load_witness :
    HandleLoadResult
        (PlayAt (PlayAt stateAsync ((0 : Nat) : Int) TrackChangeFlags.manual false).1
          ((1 : Nat) : Int) TrackChangeFlags.manual false).1
        { original_url := itemSpotifyA.url,
          outcome := LoadOutcome.loadError "unavailable" }
      = ((PlayAt (PlayAt stateAsync ((0 : Nat) : Int) TrackChangeFlags.manual false).1
          ((1 : Nat) : Int) TrackChangeFlags.manual false).1, []) := by
  exact (superseded_pending_load_fully_suppressed stateAsync 0 1
    itemSpotifyA itemSpotifyB handlerA handlerA
    TrackChangeFlags.manual TrackChangeFlags.manual false false
    rfl rfl (by decide) (by decide) rfl rfl rfl rfl
    (by decide)).2.2.2.1 (LoadOutcome.loadError "unavailable")

end Strawberry

namespace Strawberry

/-- Exhaustion of the auto-advance chain: when the consecutive failing items
are exactly as many as the threshold still allows, the chain stops with the
counter at the threshold and emits a single terminal error notification,
never reaching the items behind them. -/
theorem AutoAdvance_exhausts (fails : List Item) :
    ∀ (s : PlayerState) (idx : Nat) (rest : List Item),
      (∀ it ∈ fails, it.playable = false) →
      s.nb_errors_received_ + fails.length = s.max_errors_threshold →
      0 < fails.length →
      AutoAdvance s idx (fails ++ rest)
        = (StopNow { s with nb_errors_received_ := s.max_errors_threshold },
           [Event.engineStop, Event.notifError kFatalErrorMessage]) := by
  induction fails with
  | nil =>
    intro s idx rest _ _ hlen
    exact absurd hlen (by simp)
  | cons it fs ih =>
    intro s idx rest hall hsum _
    have hit : it.playable = false := hall it (List.mem_cons_self it fs)
    rw [List.length_cons] at hsum
    rw [List.cons_append]
    simp only [AutoAdvance]
    rw [if_neg (by simp [hit])]
    by_cases hfs : fs.length = 0
    · have hmax : s.nb_errors_received_ + 1 = s.max_errors_threshold := by omega
      rw [if_neg (by omega), hmax]
    · have hlt : s.nb_errors_received_ + 1 < s.max_errors_threshold := by omega
      rw [if_pos hlt]
      have ihh := ih { s with nb_errors_received_ := s.nb_errors_received_ + 1 }
        (idx + 1) rest
        (fun g hg => hall g (List.mem_cons_of_mem it hg))
        (show s.nb_errors_received_ + 1 + fs.length = s.max_errors_threshold by omega)
        (by omega)
      rw [ihh]

/-- C3: during an auto-advance chain, when the error counter reaches the
fixed threshold T after T consecutive failing items, `NextInternal` stops
playback and emits exactly one terminal error notification (the event trace
is exactly the engine stop followed by one `Error` notification); while the
counter is below T it instead advances to the following item. -/
theorem NextInternal_stops_at_error_threshold :
    (∀ (s : PlayerState) (change : TrackChangeFlags) (i : Nat)
        (fails rest : List Item),
      s.stop_after_current_ = false →
      s.current_index_ = some i →
      s.playlist.drop (i + 1) = fails ++ rest →
      (∀ it ∈ fails, it.playable = false) →
      s.nb_errors_received_ + fails.length = s.max_errors_threshold →
      0 < fails.length →
      (NextInternal s change).1.nb_errors_received_ = s.max_errors_threshold ∧
      (NextInternal s change).1.current_item_ = none ∧
      (NextInternal s change).1.last_state_ = EngineState.Empty ∧
      (NextInternal s change).2
        = [Event.engineStop, Event.notifError kFatalErrorMessage]) ∧
    (∀ (s : PlayerState) (idx : Nat) (item : Item) (rest : List Item),
      item.playable = false →
      s.nb_errors_received_ + 1 < s.max_errors_threshold →
      AutoAdvance s idx (item :: rest)
        = AutoAdvance { s with nb_errors_received_ := s.nb_errors_received_ + 1 }
            (idx + 1) rest) := by
  constructor
  · intro s change i fails rest hflag hidx hdrop hall hsum hlen
    obtain ⟨pl, ci, cidx, ls, nb, uh, la, vol, vbm, sac, sct, met⟩ := s
    dsimp only at hflag hidx hdrop hsum
    subst hflag
    subst hidx
    have hmain :
        NextInternal (PlayerState.mk pl ci (some i) ls nb uh la vol vbm false sct met) change
          = (StopNow (PlayerState.mk pl ci (some i) ls met uh la vol vbm false change met),
             [Event.engineStop, Event.notifError kFatalErrorMessage]) := by
      show AutoAdvance (PlayerState.mk pl ci (some i) ls nb uh la vol vbm false change met)
          (i + 1) (pl.drop (i + 1)) = _
      rw [hdrop]
      exact AutoAdvance_exhausts fails
        (PlayerState.mk pl ci (some i) ls nb uh la vol vbm false change met)
        (i + 1) rest hall hsum hlen
    rw [hmain]
    exact ⟨rfl, rfl, rfl, rfl⟩
  · intro s idx item rest hplay hlt
    simp only [AutoAdvance]
    rw [if_neg (by simp [hplay]), if_pos hlt]

/-- A concrete unplayable track. -/
def badTrack : Item :=
  { url := { scheme := "file", path := "music/broken.mp3" },
    durationSec := none, playable := false }

/-- A concrete state playing item 0 of a playlist whose three following
items all fail, with the error threshold at 3. -/
def stateFailing : PlayerState :=
  { playlist := [sampleItem, badTrack, badTrack, badTrack]
    current_item_ := some sampleItem
    current_index_ := some 0
    last_state_ := EngineState.Playing
    nb_errors_received_ := 0
    url_handlers_ := []
    loading_async_ := none
    volume := 50
    volume_before_mute_ := 50
    stop_after_current_ := false
    stream_change_type_ := TrackChangeFlags.manual
    max_errors_threshold := 3 }

/-- C3 witness: on the concrete state with three consecutive failing items
and threshold 3, `NextInternal` emits exactly the engine stop and one
terminal error notification. -/
theorem NextInternal_threshold_witness :
    (NextInternal stateFailing TrackChangeFlags.auto).2
      = [Event.engineStop, Event.notifError kFatalErrorMessage] :=
  (NextInternal_stops_at_error_threshold.1 stateFailing TrackChangeFlags.auto 0
    [badTrack, badTrack, badTrack] [] rfl rfl rfl (by decide) (by decide)
    (by decide)).2.2.2

end Strawberry

namespace Strawberry

/-- C5 witness: muting twice on the concrete playing state (volume 50)
restores volume 50. -/
theorem Mute_twice_witness :
    (Mute (Mute samplePlaying).1).1.volume = samplePlaying.volume :=
  Mute_twice_restores_volume samplePlaying (by decide) (by decide)
    (by decide) (by decide)

end Strawberry
